import Mathlib

/-!
Verification of the scholarextractor repository's processing pipeline.

The definitions below are a shallow embedding of the Python sources:
`src/storage.py` (the `PaperMetadata` record), `src/extract_semantic_scholar.py`
(`normalize_title`, `deduplicate_papers`, `calculate_title_relevance`,
`calculate_paper_score`, `rank_papers`), `src/downloader.py` together with
`src/client.py` (`download_paper`, `download_file`, `_generate_filename`,
`_sanitize_filename`, `_verify_pdf`), and `src/pdf_hunter.py` (the three
source clients and `PDFHunter.hunt_pdf`).

Strings are manipulated through their character lists so that every
operation reduces inside the kernel.  Python floats are modelled exactly:
relevance scores live in `ℚ` (only 0, 0.5, 1 occur) and rank scores in `ℝ`
(the code applies `math.log10`).  Machine-level float rounding is ignored.
Network and filesystem effects are modelled by explicit oracles and state:
an HTTP response is a value of an oracle type and the filesystem is an
association list from paths to file contents.
-/

/-- Embedding of `storage.PaperMetadata` (src/storage.py, lines 19-37).
Field defaults mirror the `kwargs.get` defaults of the constructor; the
`extracted_at` timestamp is provenance metadata and is omitted. -/
structure PaperMetadata where
  id : String := ""
  title : String := ""
  authors : List String := []
  year : Option Int := none
  venue : String := ""
  abstract : String := ""
  citations : Int := 0
  url : String := ""
  doi : String := ""
  bibtex : String := ""
  pdf_url : String := ""
  pdf_downloaded : Bool := false
  pdf_path : String := ""
deriving DecidableEq, Repr

/-- Python `str.lower()` restricted to ASCII case folding. -/
def lower (s : String) : String := String.mk (s.toList.map Char.toLower)

/-- Python's substring test `pat in hay`. -/
def strContains (hay pat : String) : Bool := decide (pat.toList <:+: hay.toList)

/-- The education vocabulary of `calculate_title_relevance`
(src/extract_semantic_scholar.py line 217). -/
def education_terms : List String :=
  ["student", "learning", "education", "teaching", "course", "training", "learner"]

/-- The web-technology vocabulary of `calculate_title_relevance`
(src/extract_semantic_scholar.py lines 222-226). -/
def tech_terms : List String :=
  ["web design", "web programming", "web development",
   "html", "css", "javascript", "website", "web page",
   "web-based", "online learning", "e-learning"]

/-- Embedding of `calculate_title_relevance` (src/extract_semantic_scholar.py
lines 203-230): 0.5 for an education term in the lowercased title plus 0.5
for a technology term. -/
def calculate_title_relevance (title : String) : ℚ :=
  let title_lower := lower title
  let score : ℚ := 0
  let score := if education_terms.any (fun term => strContains title_lower term)
    then score + 0.5 else score
  let score := if tech_terms.any (fun term => strContains title_lower term)
    then score + 0.5 else score
  score

/-- ASCII reading of the Python regex class \s (space, tab, newline,
carriage return, vertical tab, form feed). -/
def pyIsSpace (c : Char) : Bool :=
  c = ' ' || c = '\t' || c = '\n' || c = '\r' || c = '\x0b' || c = '\x0c'

/-- Characters kept by the substitution re.sub of pattern [^\w\s] with the
empty string: word characters (alphanumeric or underscore) and whitespace. -/
def pyIsWordOrSpace (c : Char) : Bool := c.isAlphanum || c = '_' || pyIsSpace c

/-- The substitution re.sub of pattern \s+ with a single space: each maximal
whitespace run becomes one space.  The flag records whether the previous
character was whitespace. -/
def collapseSpaceRuns : Bool → List Char → List Char
  | _, [] => []
  | inRun, c :: rest =>
    if pyIsSpace c then
      if inRun then collapseSpaceRuns true rest
      else ' ' :: collapseSpaceRuns true rest
    else c :: collapseSpaceRuns false rest

/-- Python str.strip-style trimming on a character list: drop characters
satisfying p from both ends. -/
def stripWhile (p : Char → Bool) (l : List Char) : List Char :=
  ((l.dropWhile p).reverse.dropWhile p).reverse

/-- Embedding of `normalize_title` (src/extract_semantic_scholar.py lines
137-142): lowercase, remove punctuation, collapse whitespace, trim. -/
def normalize_title (title : String) : String :=
  String.mk (stripWhile pyIsSpace
    (collapseSpaceRuns false ((lower title).toList.filter pyIsWordOrSpace)))

/-- The loop of `deduplicate_papers` (src/extract_semantic_scholar.py lines
158-190) with the three seen-sets made explicit (membership is all the code
observes of the Python sets).  A non-empty DOI already seen drops the
record, else a non-empty id already seen drops it, else a seen normalized
title drops it; a kept record registers its non-empty DOI, non-empty id and
(always) its normalized title. -/
def dedupGo (dois ids titles : List String) : List PaperMetadata → List PaperMetadata
  | [] => []
  | p :: ps =>
    if p.doi ≠ "" ∧ p.doi ∈ dois then dedupGo dois ids titles ps
    else if p.id ≠ "" ∧ p.id ∈ ids then dedupGo dois ids titles ps
    else if normalize_title p.title ∈ titles then dedupGo dois ids titles ps
    else p :: dedupGo (if p.doi ≠ "" then p.doi :: dois else dois)
      (if p.id ≠ "" then p.id :: ids else ids)
      (normalize_title p.title :: titles) ps

/-- Embedding of `deduplicate_papers` (src/extract_semantic_scholar.py lines
145-200). -/
def deduplicate_papers (papers : List PaperMetadata) : List PaperMetadata :=
  dedupGo [] [] [] papers

/-- Counterexample record: no DOI, title "T". -/
def cexA : PaperMetadata := { id := "a", title := "T", doi := "" }

/-- Counterexample record: DOI "d", title "T" (dropped by the title rule,
so its DOI is never registered). -/
def cexB : PaperMetadata := { id := "b", title := "T", doi := "d" }

/-- Counterexample record: DOI "d" shared with cexB, fresh title. -/
def cexC : PaperMetadata := { id := "c", title := "U", doi := "d" }

/-- Counterexample record: DOI "e", title "T2". -/
def cexD : PaperMetadata := { id := "d1", title := "T2", doi := "e" }

/-- Counterexample record: DOI "e" (dropped by the DOI rule, so its title is
never registered), title "T3". -/
def cexE : PaperMetadata := { id := "e1", title := "T3", doi := "e" }

/-- Counterexample record: fresh DOI "f", title "T3" equal to cexE's. -/
def cexF : PaperMetadata := { id := "f1", title := "T3", doi := "f" }

/-- The known venue fragments of `calculate_paper_score`
(src/extract_semantic_scholar.py lines 304-311). -/
def known_venues : List String :=
  ["Computers & Education", "Computers and Education",
   "IEEE", "ACM", "SIGCSE",
   "Journal of Educational Technology",
   "Educational Technology & Society",
   "British Journal of Educational Technology",
   "Interactive Learning Environments"]

/-- The venue-quality test of `calculate_paper_score` line 312: the venue
is truthy (non-empty) and case-insensitively contains a known fragment. -/
def venueKnown (venue : String) : Bool :=
  (venue != "") && known_venues.any (fun v => strContains (lower venue) (lower v))

/-- Embedding of `calculate_paper_score` (src/extract_semantic_scholar.py
lines 270-315).  Python floats become exact reals, `math.log10 x` becomes
`Real.logb 10 x`; the recency bonus is integer arithmetic in the source.
The guards mirror Python truthiness: `if paper.citations and
paper.citations > 0`, `if paper.year`, `if paper.pdf_url`. -/
noncomputable def calculate_paper_score (paper : PaperMetadata) : ℝ :=
  let score : ℝ := 0
  let score := if paper.citations ≠ 0 ∧ 0 < paper.citations then
      score + min (Real.logb 10 ((paper.citations : ℝ) + 1) * 10) 50 else score
  let score := match paper.year with
    | some y => if y ≠ 0 then score + ((max 0 (30 - (2025 - y)) : ℤ) : ℝ) else score
    | none => score
  let score := if paper.pdf_url ≠ "" then score + 10 else score
  let score := if venueKnown paper.venue then score + 10 else score
  score

/-- The spec's concrete scoring scenario: 99 citations, year 2024,
non-empty pdf_url, venue containing "IEEE". -/
def examplePaper69 : PaperMetadata :=
  { id := "ex69", title := "Example", citations := 99, year := some 2024,
    pdf_url := "x", venue := "IEEE Transactions" }

/-- The comparison used to embed `sorted(papers, key=rank_score,
reverse=True)`: p may precede q when q's score is at most p's. -/
noncomputable def paperLE (p q : PaperMetadata) : Bool :=
  decide (calculate_paper_score q ≤ calculate_paper_score p)

/-- Embedding of `rank_papers` (src/extract_semantic_scholar.py lines
318-346): a stable sort, descending by `calculate_paper_score`.  The Python
code first caches the score on each record as `rank_score` and sorts by
that cache; the cache is derived data and only the ordering is modelled. -/
noncomputable def rank_papers (papers : List PaperMetadata) : List PaperMetadata :=
  papers.mergeSort paperLE

/-- Witness record for stability: all scoring fields at defaults. -/
def wit1 : PaperMetadata := { id := "w1" }

/-- Second witness record for stability, differing from wit1 only in id. -/
def wit2 : PaperMetadata := { id := "w2" }

/-- Config.PDF_MAX_SIZE_MB (src/config.py line 45). -/
def PDF_MAX_SIZE_MB : Nat := 50

/-- Config.VERIFY_PDF (src/config.py line 46). -/
def VERIFY_PDF : Bool := true

/-- Config.PAPERS_DIR (src/config.py line 18), as a path prefix. -/
def PAPERS_DIR : String := "data/papers"

/-- Python str.split() with no argument: whitespace-separated words with
empties discarded.  The accumulator holds the current word reversed. -/
def pySplitAux : List Char → List Char → List String
  | acc, [] => if acc = [] then [] else [String.mk acc.reverse]
  | acc, c :: rest =>
    if pyIsSpace c then
      if acc = [] then pySplitAux [] rest
      else String.mk acc.reverse :: pySplitAux [] rest
    else pySplitAux (c :: acc) rest

/-- Python str.split() on a string. -/
def pySplit (s : String) : List String := pySplitAux [] s.toList

/-- The invalid filename characters of `_sanitize_filename`
(src/downloader.py line 217): angle brackets, colon, double quote, slash,
backslash, pipe, question mark, asterisk, and controls 0x00-0x1f. -/
def isInvalidFileChar (c : Char) : Bool :=
  c = '<' || c = '>' || c = ':' || c = '"' || c = '/' || c = '\\' ||
  c = '|' || c = '?' || c = '*' || decide (c.toNat ≤ 0x1f)

/-- Collapse each maximal run of characters satisfying p into one copy of
rep (the re.sub substitutions of \s+ and of consecutive underscores in
`_sanitize_filename`). -/
def collapseRuns (p : Char → Bool) (rep : Char) : Bool → List Char → List Char
  | _, [] => []
  | inRun, c :: rest =>
    if p c then
      if inRun then collapseRuns p rep true rest
      else rep :: collapseRuns p rep true rest
    else c :: collapseRuns p rep false rest

/-- Embedding of `PDFDownloader._sanitize_filename` (src/downloader.py
lines 206-227): drop invalid characters, turn whitespace runs into a single
underscore, collapse underscore runs, strip leading and trailing dots and
underscores. -/
def sanitize_filename (filename : String) : String :=
  let cs := filename.toList.filter (fun c => !(isInvalidFileChar c))
  let cs := collapseRuns pyIsSpace '_' false cs
  let cs := collapseRuns (fun c => c = '_') '_' false cs
  let cs := stripWhile (fun c => c = '.' || c = '_') cs
  String.mk cs

/-- Python-style endswith via list suffix. -/
def strEndsWith (s suffix : String) : Bool := decide (suffix.toList <:+ s.toList)

/-- Embedding of `PDFDownloader._generate_filename` (src/downloader.py
lines 162-204) at the default max_length 100: last word of the first
author (default "Unknown"), the year (Python `paper.year or "Unknown"`,
so 0 and None both give "Unknown"), the title truncated to 50 characters
(default "Untitled"), joined by underscores, sanitized, truncated to 96
characters, with ".pdf" appended unless already present case-insensitively. -/
def generate_filename (paper : PaperMetadata) : String :=
  let author := match paper.authors with
    | [] => "Unknown"
    | first :: _ => (pySplit first).getLastD "Unknown"
  let yearStr := match paper.year with
    | some y => if y ≠ 0 then toString y else "Unknown"
    | none => "Unknown"
  let titlePart := if paper.title ≠ "" then String.mk (paper.title.toList.take 50)
    else "Untitled"
  let fn := sanitize_filename (author ++ "_" ++ yearStr ++ "_" ++ titlePart)
  let fn := if 96 < fn.toList.length then String.mk (fn.toList.take 96) else fn
  if strEndsWith (lower fn) ".pdf" then fn else fn ++ ".pdf"

/-- The deterministic target path of a paper's PDF:
`Config.PAPERS_DIR / filename` (src/downloader.py line 118). -/
def targetPath (paper : PaperMetadata) : String :=
  PAPERS_DIR ++ "/" ++ generate_filename paper

/-- Filesystem model: an association of paths to file contents (byte
strings).  Lookup returns the most recent binding. -/
def getFile (files : List (String × String)) (path : String) : Option String :=
  (files.find? (fun e => e.1 == path)).map (fun e => e.2)

/-- Delete a path (used for `filepath.unlink()`). -/
def removeFile (files : List (String × String)) (path : String) :
    List (String × String) :=
  files.filter (fun e => e.1 != path)

/-- Write a file, replacing any previous content (open(filepath, 'wb')). -/
def setFile (files : List (String × String)) (path content : String) :
    List (String × String) :=
  (path, content) :: removeFile files path

/-- Record a status in the download log under a paper id
(`self.download_log[paper.id] = ...`, a dict overwrite). -/
def logSet (log : List (String × String)) (pid status : String) :
    List (String × String) :=
  (pid, status) :: log.filter (fun e => e.1 != pid)

/-- Read the status recorded for a paper id. -/
def logGet (log : List (String × String)) (pid : String) : Option String :=
  (log.find? (fun e => e.1 == pid)).map (fun e => e.2)

/-- World state of the downloader: the papers directory and the download
log (src/downloader.py, `self.download_log`). -/
structure DLState where
  files : List (String × String) := []
  log : List (String × String) := []
deriving DecidableEq, Repr

/-- Network oracle for one call of `RateLimitedSession.download_file`
(src/client.py lines 172-219).  `netError`: the request or a pre-write step
raised (connection failure, or `raise_for_status` on a non-2xx reply), so
nothing was written.  `response cl written complete`: the server answered
with advertised content-length `cl`, and `written` is the byte sequence the
chunk loop put into the file — the full body when `complete`, otherwise the
prefix written before a mid-stream exception. -/
inductive NetResult where
  | netError
  | response (contentLength : Option Nat) (written : String) (complete : Bool)
deriving DecidableEq, Repr

/-- Embedding of `RateLimitedSession.download_file` (src/client.py lines
172-219): abort before writing when the advertised size exceeds
PDF_MAX_SIZE_MB (int(cl)/(1024*1024) > 50 iff 50*1024*1024 < cl);
otherwise the open call truncates the target and the chunk loop writes
`written`.  The call reports success only for a completed transfer; a
mid-stream exception is caught, returns False, and leaves the partial file
in place. -/
def download_file (r : NetResult) (filepath : String)
    (files : List (String × String)) : Bool × List (String × String) :=
  match r with
  | .netError => (false, files)
  | .response contentLength written complete =>
    match contentLength with
    | some n =>
      if 50 * 1024 * 1024 < n then (false, files)
      else (complete, setFile files filepath written)
    | none => (complete, setFile files filepath written)

/-- Embedding of `PDFDownloader._verify_pdf` (src/downloader.py lines
229-259): with verification enabled the file must exist (a stat failure is
caught and yields False), be non-empty, and begin with the four bytes
"%PDF". -/
def verify_pdf (files : List (String × String)) (filepath : String) : Bool :=
  if !VERIFY_PDF then true
  else match getFile files filepath with
    | none => false
    | some content =>
      if content.length = 0 then false
      else "%PDF".toList.isPrefixOf content.toList

/-- The test `filepath.exists() and filepath.stat().st_size > 0`
(src/downloader.py line 121). -/
def hasNonemptyFile (files : List (String × String)) (path : String) : Bool :=
  match getFile files path with
  | some content => decide (0 < content.length)
  | none => false

/-- Result of one `download_paper` call: the returned Bool, the mutated
paper, the new world state, and whether the network was consulted. -/
structure DLOutcome where
  ok : Bool
  paper : PaperMetadata
  state : DLState
  usedNetwork : Bool
deriving DecidableEq, Repr

/-- Embedding of `PDFDownloader.download_paper` (src/downloader.py lines
102-160).  No pdf_url: failure without a request.  An existing non-empty
file at the target path short-circuits as already downloaded (no request,
no verification).  Otherwise the file is fetched: a verified download
succeeds and logs "success"; content failing verification is deleted and
logged "invalid"; a failed transfer is logged "failed" and any partial
file is left in place. -/
def download_paper (paper : PaperMetadata) (r : NetResult) (st : DLState) : DLOutcome :=
  if paper.pdf_url = "" then ⟨false, paper, st, false⟩
  else if hasNonemptyFile st.files (targetPath paper) then
    ⟨true, { paper with pdf_downloaded := true, pdf_path := targetPath paper }, st, false⟩
  else if (download_file r (targetPath paper) st.files).1 then
    if verify_pdf (download_file r (targetPath paper) st.files).2 (targetPath paper) then
      ⟨true, { paper with pdf_downloaded := true, pdf_path := targetPath paper },
        ⟨(download_file r (targetPath paper) st.files).2,
          logSet st.log paper.id "success"⟩, true⟩
    else
      ⟨false, paper,
        ⟨removeFile (download_file r (targetPath paper) st.files).2 (targetPath paper),
          logSet st.log paper.id "invalid"⟩, true⟩
  else
    ⟨false, paper,
      ⟨(download_file r (targetPath paper) st.files).2,
        logSet st.log paper.id "failed"⟩, true⟩

/-- C4 failing input: a paper whose first download attempt dies mid-stream. -/
def paperC4 : PaperMetadata :=
  { id := "p4", title := "A Title", authors := ["Ann Smith"], year := some 2020,
    pdf_url := "http://x/a.pdf" }

/-- First call on paperC4: the transfer is interrupted after writing an
HTML error-page fragment. -/
def outC4a : DLOutcome := download_paper paperC4 (.response none "<html>err" false) {}

/-- Second call on the same paper; the oracle value is irrelevant because
the call short-circuits on the leftover file. -/
def outC4b : DLOutcome := download_paper outC4a.paper .netError outC4a.state

/-- C5 counterexample record. -/
def paperC5 : PaperMetadata := { id := "p5", title := "B", pdf_url := "http://x/b.pdf" }

/-- C8 witness record. -/
def paperC8 : PaperMetadata := { id := "p8", title := "C", pdf_url := "http://x/c.pdf" }

/-- Embedding of the PDFSource dataclass (src/pdf_hunter.py lines 26-32). -/
structure PDFSource where
  url : String
  source_name : String
  is_open_access : Bool
  license : Option String := none
deriving DecidableEq, Repr

/-- The best_oa_location object consumed by `UnpaywallAPI.find_pdf`;
absent or null JSON fields are `none`. -/
structure OALocation where
  url_for_pdf : Option String := none
  license : Option String := none
  version : Option String := none
deriving DecidableEq, Repr

/-- The JSON body consumed by `UnpaywallAPI.find_pdf`. -/
structure UnpaywallData where
  is_oa : Bool := false
  best_oa_location : Option OALocation := none
deriving DecidableEq, Repr

/-- HTTP oracle for one source call: `exn` models a raised request
exception or a malformed (unparseable) body; `ok` carries the status code
and the parsed body. -/
inductive APIResult (α : Type) where
  | exn
  | ok (status : Nat) (body : α)
deriving DecidableEq, Repr

/-- Embedding of `UnpaywallAPI.find_pdf` (src/pdf_hunter.py lines 58-124):
a DOI is required; a 200 reply with is_oa set and a best_oa_location
exposing a truthy url_for_pdf yields an open-access source; 404 is a clean
negative; any other status or an exception yields nothing. -/
def unpaywall_find_pdf (paper : PaperMetadata) (r : APIResult UnpaywallData) :
    Option PDFSource :=
  if paper.doi = "" then none
  else match r with
    | .exn => none
    | .ok status body =>
      if status = 200 then
        if body.is_oa then
          match body.best_oa_location with
          | some loc => match loc.url_for_pdf with
            | some u => if u ≠ "" then
                some ⟨u, "Unpaywall (" ++ loc.version.getD "unknown" ++ ")", true, loc.license⟩
              else none
            | none => none
          | none => none
        else none
      else none

/-- One search result consumed by `COREAPI.find_pdf`. -/
structure COREResult where
  title : String := ""
  downloadUrl : Option String := none
deriving DecidableEq, Repr

/-- The JSON body consumed by `COREAPI.find_pdf`. -/
structure COREData where
  data : List COREResult := []
deriving DecidableEq, Repr

/-- The result loop of `COREAPI.find_pdf` (src/pdf_hunter.py lines
185-205): the first result whose lowercased title is longer than 10
characters, whose first 30 characters occur in the lowercased query title,
and which exposes a truthy downloadUrl. -/
def coreScan (queryTitle : String) : List COREResult → Option PDFSource
  | [] => none
  | res :: rest =>
    if 10 < (lower res.title).toList.length ∧
        strContains (lower queryTitle) (String.mk ((lower res.title).toList.take 30)) then
      match res.downloadUrl with
      | some u => if u ≠ "" then some ⟨u, "CORE (repository)", true, none⟩
        else coreScan queryTitle rest
      | none => coreScan queryTitle rest
    else coreScan queryTitle rest

/-- Embedding of `COREAPI.find_pdf` (src/pdf_hunter.py lines 151-224): a
title search needing no DOI; a 200 reply scans the results; 429 (rate
limit), any other non-200 status, or an exception yields nothing. -/
def core_find_pdf (paper : PaperMetadata) (r : APIResult COREData) : Option PDFSource :=
  match r with
  | .exn => none
  | .ok status body => if status = 200 then coreScan paper.title body.data else none

/-- One link object consumed by `CrossRefAPI.find_pdf` (JSON keys
"content-type" and "URL"). -/
structure CRLink where
  content_type : String := ""
  URL : Option String := none
deriving DecidableEq, Repr

/-- The message body consumed by `CrossRefAPI.find_pdf`. -/
structure CRMessage where
  link : List CRLink := []
deriving DecidableEq, Repr

/-- The link loop of `CrossRefAPI.find_pdf` (src/pdf_hunter.py lines
276-290): the first link typed application/pdf with a truthy URL. -/
def crScan : List CRLink → Option PDFSource
  | [] => none
  | l :: rest =>
    if l.content_type = "application/pdf" then
      match l.URL with
      | some u => if u ≠ "" then some ⟨u, "CrossRef", false, none⟩ else crScan rest
      | none => crScan rest
    else crScan rest

/-- Embedding of `CrossRefAPI.find_pdf` (src/pdf_hunter.py lines 250-305):
a DOI is required; a 200 reply is scanned for a PDF-typed link; any other
status or an exception yields nothing. -/
def crossref_find_pdf (paper : PaperMetadata) (r : APIResult CRMessage) :
    Option PDFSource :=
  if paper.doi = "" then none
  else match r with
    | .exn => none
    | .ok status body => if status = 200 then crScan body.link else none

/-- Statistics dictionary of PDFHunter (src/pdf_hunter.py lines 333-338);
by_source maps source class names to counts, in insertion order. -/
structure HunterStats where
  attempted : Nat := 0
  found : Nat := 0
  not_found : Nat := 0
  by_source : List (String × Nat) := []
deriving DecidableEq, Repr

/-- The by_source update of hunt_pdf (src/pdf_hunter.py lines 361-364):
insert 0 for an unseen source name, then increment. -/
def bumpSource : List (String × Nat) → String → List (String × Nat)
  | [], k => [(k, 1)]
  | (k', v) :: rest, k =>
    if k' = k then (k', v + 1) :: rest else (k', v) :: bumpSource rest k

/-- One hunt's worth of network behaviour: the oracle for each source. -/
structure HuntResponses where
  unpaywall : APIResult UnpaywallData
  core : APIResult COREData
  crossref : APIResult CRMessage
deriving DecidableEq, Repr

/-- Embedding of `PDFHunter.hunt_pdf` (src/pdf_hunter.py lines 340-377):
count the attempt, try Unpaywall, CORE, CrossRef in that fixed order, stop
at the first source yielding a result (crediting that source), and count
not_found when all three yield nothing. -/
def hunt_pdf (stats : HunterStats) (paper : PaperMetadata) (rs : HuntResponses) :
    Option PDFSource × HunterStats :=
  let stats := { stats with attempted := stats.attempted + 1 }
  match unpaywall_find_pdf paper rs.unpaywall with
  | some s =>
    (some s,
      { stats with found := stats.found + 1,
                   by_source := bumpSource stats.by_source "UnpaywallAPI" })
  | none =>
    match core_find_pdf paper rs.core with
    | some s =>
      (some s,
        { stats with found := stats.found + 1,
                     by_source := bumpSource stats.by_source "COREAPI" })
    | none =>
      match crossref_find_pdf paper rs.crossref with
      | some s =>
        (some s,
          { stats with found := stats.found + 1,
                       by_source := bumpSource stats.by_source "CrossRefAPI" })
      | none => (none, { stats with not_found := stats.not_found + 1 })

/-- A sequence of completed hunts from a given statistics state. -/
def run_hunts (stats : HunterStats) : List (PaperMetadata × HuntResponses) → HunterStats
  | [] => stats
  | (p, rs) :: rest => run_hunts (hunt_pdf stats p rs).2 rest

/-- The C10 counter relations: attempted = found + not_found and the
per-source counts sum to found. -/
def statsOk (s : HunterStats) : Prop :=
  s.attempted = s.found + s.not_found ∧
  (s.by_source.map (fun e => e.2)).sum = s.found

/-- C9 witness record: a paper without a DOI. -/
def paperNoDoi : PaperMetadata := { id := "n", title := "t" }

/-- C1: for every title the relevance score is exactly one of 0, 0.5, 1;
a title whose lowercase form contains both an education term and a
web-technology term scores 1; a title containing neither scores 0. -/
theorem calculate_title_relevance_values (title : String) :
    (calculate_title_relevance title = 0 ∨ calculate_title_relevance title = 0.5 ∨
      calculate_title_relevance title = 1) ∧
    ((∃ t ∈ education_terms, t.toList <:+: (lower title).toList) →
      (∃ t ∈ tech_terms, t.toList <:+: (lower title).toList) →
      calculate_title_relevance title = 1) ∧
    ((¬ ∃ t ∈ education_terms, t.toList <:+: (lower title).toList) →
      (¬ ∃ t ∈ tech_terms, t.toList <:+: (lower title).toList) →
      calculate_title_relevance title = 0) := by
  have hedu : education_terms.any (fun term => strContains (lower title) term) = true ↔
      ∃ t ∈ education_terms, t.toList <:+: (lower title).toList := by
    simp [List.any_eq_true, strContains]
  have htech : tech_terms.any (fun term => strContains (lower title) term) = true ↔
      ∃ t ∈ tech_terms, t.toList <:+: (lower title).toList := by
    simp [List.any_eq_true, strContains]
  have hval : ∀ b c : Bool,
      (education_terms.any (fun term => strContains (lower title) term)) = b →
      (tech_terms.any (fun term => strContains (lower title) term)) = c →
      calculate_title_relevance title =
        (if b then (0.5 : ℚ) else 0) + (if c then (0.5 : ℚ) else 0) := by
    intro b c hb hc
    simp only [calculate_title_relevance, hb, hc]
    cases b <;> cases c <;> norm_num
  rcases he : education_terms.any (fun term => strContains (lower title) term) with _ | _ <;>
    rcases ht : tech_terms.any (fun term => strContains (lower title) term) with _ | _ <;>
    rw [hval _ _ he ht] <;>
    refine ⟨by norm_num, fun hE hT => ?_, fun hE hT => ?_⟩
  · exact absurd (hedu.mpr hE) (by simp [he])
  · norm_num
  · exact absurd (hedu.mpr hE) (by simp [he])
  · exact absurd (htech.mp ht) hT
  · exact absurd (htech.mpr hT) (by simp [ht])
  · exact absurd (hedu.mp he) hE
  · norm_num
  · exact absurd (hedu.mp he) hE

/-- C1 witness: the spec's concrete scenario, title "Student Web Design
Course", scores 1. -/
theorem calculate_title_relevance_values_witness :
    calculate_title_relevance "Student Web Design Course" = 1 :=
  (calculate_title_relevance_values "Student Web Design Course").2.1
    (by decide) (by decide)

/-- The deduplication output is a subsequence of its input. -/
theorem dedupGo_sublist (l : List PaperMetadata) :
    ∀ dois ids titles, (dedupGo dois ids titles l).Sublist l := by
  induction l with
  | nil => intro _ _ _; simp [dedupGo]
  | cons p ps ih =>
    intro dois ids titles
    simp only [dedupGo]
    split
    · exact (ih _ _ _).trans (List.sublist_cons_self p ps)
    · split
      · exact (ih _ _ _).trans (List.sublist_cons_self p ps)
      · split
        · exact (ih _ _ _).trans (List.sublist_cons_self p ps)
        · exact (ih _ _ _).cons₂ p

/-- Every record kept by the loop avoids the initial seen-sets: its
non-empty DOI is not among the seen DOIs and its normalized title is not
among the seen titles. -/
theorem mem_dedupGo (l : List PaperMetadata) :
    ∀ dois ids titles p, p ∈ dedupGo dois ids titles l →
      (p.doi ≠ "" → p.doi ∉ dois) ∧ normalize_title p.title ∉ titles := by
  induction l with
  | nil => intro dois ids titles p h; simp [dedupGo] at h
  | cons q ps ih =>
    intro dois ids titles p h
    simp only [dedupGo] at h
    split at h
    · exact ih _ _ _ _ h
    · split at h
      · exact ih _ _ _ _ h
      · split at h
        · exact ih _ _ _ _ h
        · rename_i hc1 hc2 hc3
          rcases List.mem_cons.mp h with rfl | h2
          · exact ⟨fun hne hmem => hc1 ⟨hne, hmem⟩, hc3⟩
          · have hrec := ih _ _ _ _ h2
            refine ⟨fun hne hmem => ?_, fun hmem => ?_⟩
            · refine hrec.1 hne ?_
              split
              · exact List.mem_cons_of_mem _ hmem
              · exact hmem
            · exact hrec.2 (List.mem_cons_of_mem _ hmem)

/-- No two records of the deduplication output share a non-empty DOI, and
no two share a normalized title. -/
theorem dedupGo_pairwise (l : List PaperMetadata) :
    ∀ dois ids titles,
      (dedupGo dois ids titles l).Pairwise (fun p q => ¬(p.doi ≠ "" ∧ p.doi = q.doi)) ∧
      (dedupGo dois ids titles l).Pairwise
        (fun p q => normalize_title p.title ≠ normalize_title q.title) := by
  induction l with
  | nil => intro _ _ _; simp [dedupGo]
  | cons q ps ih =>
    intro dois ids titles
    simp only [dedupGo]
    split
    · exact ih _ _ _
    · split
      · exact ih _ _ _
      · split
        · exact ih _ _ _
        · constructor
          · refine List.Pairwise.cons ?_ (ih _ _ _).1
            rintro b hb ⟨hne, heq⟩
            have hni := (mem_dedupGo ps _ _ _ b hb).1 (heq ▸ hne)
            rw [← heq] at hni
            exact hni (by simp [hne])
          · refine List.Pairwise.cons ?_ (ih _ _ _).2
            intro b hb heq
            exact (mem_dedupGo ps _ _ _ b hb).2 (heq ▸ List.mem_cons_self _ _)

/-- C2 counterexample: the claim as stated is false.  In the first list,
cexB and cexC share the non-empty DOI "d", yet the later record cexC
survives (cexB was dropped by the title rule before registering its DOI).
In the second list, cexE and cexF have distinct non-empty DOIs and equal
normalized titles, yet the later record cexF survives (cexE was dropped by
the DOI rule before registering its title). -/
theorem deduplicate_papers_later_kept_cex :
    (deduplicate_papers [cexA, cexB, cexC] = [cexA, cexC] ∧
      cexB.doi = cexC.doi ∧ cexB.doi ≠ "") ∧
    (deduplicate_papers [cexD, cexE, cexF] = [cexD, cexF] ∧
      normalize_title cexE.title = normalize_title cexF.title ∧
      cexE.doi ≠ cexF.doi ∧ cexE.doi ≠ "" ∧ cexF.doi ≠ "") := by
  decide

/-- C2 (amended): deduplication returns a subsequence of the input in which
no two records share a non-empty DOI and no two records have equal
normalized titles; hence whenever two input records share a non-empty DOI,
or have equal normalized titles, at most one of them survives, and when the
earlier of the two is kept the later one is removed. -/
theorem deduplicate_papers_pairwise_unique (papers : List PaperMetadata) :
    (deduplicate_papers papers).Sublist papers ∧
    (deduplicate_papers papers).Pairwise (fun p q => ¬(p.doi ≠ "" ∧ p.doi = q.doi)) ∧
    (deduplicate_papers papers).Pairwise
      (fun p q => normalize_title p.title ≠ normalize_title q.title) :=
  ⟨dedupGo_sublist papers [] [] [], (dedupGo_pairwise papers [] [] []).1,
    (dedupGo_pairwise papers [] [] []).2⟩

/-- The deduplication loop is idempotent from any seen-set state. -/
theorem dedupGo_idem (l : List PaperMetadata) :
    ∀ dois ids titles,
      dedupGo dois ids titles (dedupGo dois ids titles l) = dedupGo dois ids titles l := by
  induction l with
  | nil => intro _ _ _; simp [dedupGo]
  | cons p ps ih =>
    intro dois ids titles
    simp only [dedupGo]
    split
    · exact ih _ _ _
    · split
      · exact ih _ _ _
      · split
        · exact ih _ _ _
        · rename_i hc1 hc2 hc3
          simp only [dedupGo]
          rw [if_neg hc1, if_neg hc2, if_neg hc3]
          exact congrArg _ (ih _ _ _)

/-- C3: deduplication is idempotent; applying it to its own output returns
that output unchanged. -/
theorem deduplicate_papers_idempotent (papers : List PaperMetadata) :
    deduplicate_papers (deduplicate_papers papers) = deduplicate_papers papers :=
  dedupGo_idem papers [] [] []

/-- The truthiness guard on the venue is redundant: an empty venue contains
no known fragment anyway. -/
theorem venueKnown_eq_any (venue : String) :
    venueKnown venue = known_venues.any (fun v => strContains (lower venue) (lower v)) := by
  by_cases hv : venue = ""
  · rw [hv]; decide
  · simp [venueKnown, hv]

/-- C6: the rank score equals the sum of the four components stated by the
claim, and the spec's concrete record scores exactly 69. -/
theorem calculate_paper_score_decomposition_and_example :
    (∀ paper : PaperMetadata,
      calculate_paper_score paper =
        (if 0 < paper.citations then
          min (Real.logb 10 ((paper.citations : ℝ) + 1) * 10) 50 else 0) +
        (match paper.year with
          | some y => ((max 0 (30 - (2025 - y)) : ℤ) : ℝ)
          | none => 0) +
        (if paper.pdf_url ≠ "" then (10 : ℝ) else 0) +
        (if known_venues.any (fun v => strContains (lower paper.venue) (lower v)) then (10 : ℝ)
          else 0)) ∧
    calculate_paper_score examplePaper69 = 69 := by
  constructor
  · intro paper
    have hciff : (paper.citations ≠ 0 ∧ 0 < paper.citations) ↔ 0 < paper.citations := by omega
    simp only [calculate_paper_score, ← venueKnown_eq_any, hciff]
    rcases hy : paper.year with _ | y
    · by_cases hc : 0 < paper.citations <;> by_cases hp : paper.pdf_url = "" <;>
        by_cases hv : venueKnown paper.venue = true <;> simp [hc, hp, hv]
    · by_cases hyz : y = 0
      · subst hyz
        have hmax : (max 0 (30 - (2025 - 0)) : ℤ) = 0 := by decide
        by_cases hc : 0 < paper.citations <;> by_cases hp : paper.pdf_url = "" <;>
          by_cases hv : venueKnown paper.venue = true <;> simp [hc, hp, hv, hmax]
      · by_cases hc : 0 < paper.citations <;> by_cases hp : paper.pdf_url = "" <;>
          by_cases hv : venueKnown paper.venue = true <;> simp [hc, hp, hv, hyz]
  · have hlog : Real.logb 10 (100 : ℝ) = 2 := by
      rw [show (100 : ℝ) = 10 ^ (2 : ℕ) by norm_num, Real.logb_pow,
        Real.logb_self_eq_one (by norm_num)]
      norm_num
    have hmax : (max 0 (30 - (2025 - 2024)) : ℤ) = 29 := by decide
    have hv : venueKnown "IEEE Transactions" = true := by decide
    simp only [calculate_paper_score, examplePaper69]
    norm_num [hv, hmax]
    rw [if_neg (by decide : ¬("x" : String) = "")]
    rw [hlog]
    norm_num

/-- The mergeSort comparison is transitive. -/
theorem paperLE_trans (a b c : PaperMetadata) :
    paperLE a b = true → paperLE b c = true → paperLE a c = true := by
  simp only [paperLE, decide_eq_true_eq]
  exact fun h1 h2 => le_trans h2 h1

/-- The mergeSort comparison is total. -/
theorem paperLE_total (a b : PaperMetadata) : (paperLE a b || paperLE b a) = true := by
  simp only [paperLE, Bool.or_eq_true, decide_eq_true_eq]
  exact le_total _ _

/-- C7: ranking returns the input records sorted in descending order of
rank score (it is a permutation of the input), and the sort is stable: two
records with equal scores that occur in order in the input occur in the
same order in the output. -/
theorem rank_papers_sorted_stable :
    (∀ papers : List PaperMetadata, (rank_papers papers).Sorted
      (fun p q => calculate_paper_score q ≤ calculate_paper_score p)) ∧
    (∀ papers : List PaperMetadata, (rank_papers papers).Perm papers) ∧
    (∀ (papers : List PaperMetadata) (a b : PaperMetadata),
      calculate_paper_score a = calculate_paper_score b →
      [a, b].Sublist papers → [a, b].Sublist (rank_papers papers)) := by
  refine ⟨fun papers => ?_, fun papers => List.mergeSort_perm papers paperLE,
    fun papers a b hab hsub => ?_⟩
  · have h := @List.sorted_mergeSort PaperMetadata paperLE paperLE_trans paperLE_total papers
    exact h.imp (fun hle => by simpa [paperLE, decide_eq_true_eq] using hle)
  · refine List.sublist_mergeSort paperLE_trans paperLE_total ?_ hsub
    refine List.Pairwise.cons ?_ (List.pairwise_singleton _ _)
    intro x hx
    rw [List.mem_singleton.mp hx]
    simp [paperLE, hab]

/-- C7 witness: two equal-score records keep their relative order. -/
theorem rank_papers_sorted_stable_witness :
    [wit1, wit2].Sublist (rank_papers [wit1, wit2]) :=
  rank_papers_sorted_stable.2.2 [wit1, wit2] wit1 wit2 rfl (List.Sublist.refl _)

/-- Reading back a freshly written file yields its content. -/
theorem getFile_setFile (files : List (String × String)) (path content : String) :
    getFile (setFile files path content) path = some content := by
  simp [getFile, setFile]

/-- A deleted path has no content. -/
theorem getFile_removeFile (files : List (String × String)) (path : String) :
    getFile (removeFile files path) path = none := by
  have hfind : List.find? (fun e => e.1 == path) (removeFile files path) = none := by
    rw [List.find?_eq_none]
    intro e he
    have h2 := (List.mem_filter.mp he).2
    simp only [bne_iff_ne, ne_eq] at h2
    simp [h2]
  simp [getFile, hfind]

/-- Verification of a freshly written file checks only its content. -/
theorem verify_pdf_setFile (files : List (String × String)) (path body : String) :
    verify_pdf (setFile files path body) path
      = if body.length = 0 then false else "%PDF".toList.isPrefixOf body.toList := by
  unfold verify_pdf
  rw [getFile_setFile]
  rfl

/-- Reading back a freshly recorded log status yields that status. -/
theorem logGet_logSet (log : List (String × String)) (pid status : String) :
    logGet (logSet log pid status) pid = some status := by
  simp [logGet, logSet]

/-- A verified file exists and is non-empty. -/
theorem hasNonemptyFile_of_verify (files : List (String × String)) (path : String)
    (h : verify_pdf files path = true) : hasNonemptyFile files path = true := by
  unfold verify_pdf VERIFY_PDF at h
  unfold hasNonemptyFile
  rcases hg : getFile files path with _ | content
  · rw [hg] at h
    simp at h
  · rw [hg] at h
    simp only [Bool.not_true, Bool.false_eq_true, if_false] at h
    rcases hlen : content.length with _ | n
    · rw [hlen] at h
      simp at h
    · simp [hlen]

/-- The download target path ignores the PDF bookkeeping fields. -/
theorem targetPath_update (paper : PaperMetadata) (b : Bool) (s : String) :
    targetPath { paper with pdf_downloaded := b, pdf_path := s } = targetPath paper := rfl

/-- C4 is violated by the code (code bug): the first call's mid-stream
failure leaves a partial non-PDF file at the target path and logs "failed"
without cleaning up; the second call short-circuits on that existing
non-empty file and marks the paper downloaded without verification, so
pdf_downloaded is true while the file at pdf_path does not begin with
"%PDF". -/
theorem download_paper_marks_nonpdf_downloaded :
    outC4a.ok = false ∧ logGet outC4a.state.log paperC4.id = some "failed" ∧
    outC4b.ok = true ∧ outC4b.paper.pdf_downloaded = true ∧
    outC4b.paper.pdf_path ≠ "" ∧
    (getFile outC4b.state.files outC4b.paper.pdf_path).map
      (fun content => "%PDF".toList.isPrefixOf content.toList) = some false := by
  decide

/-- C5 counterexample: an attempt whose advertised size exceeds the
configured maximum (52428801 bytes is just over 50 MB) leaves no file but
is recorded with status "failed", not the claimed "invalid". -/
theorem download_oversized_status_cex :
    (download_paper paperC5 (.response (some 52428801) "" true) {}).ok = false ∧
    logGet (download_paper paperC5 (.response (some 52428801) "" true) {}).state.log "p5"
      = some "failed" ∧
    getFile (download_paper paperC5 (.response (some 52428801) "" true) {}).state.files
      (targetPath paperC5) = none := by
  decide

/-- C5 (amended): a completed transfer whose payload fails the 4-byte PDF
signature check (with no non-empty file already at the target) leaves no
file at the target path and is logged with the distinct status "invalid";
an attempt whose advertised size exceeds the maximum writes nothing (the
filesystem is unchanged) but is logged "failed", not "invalid". -/
theorem download_invalid_and_oversized :
    (∀ (paper : PaperMetadata) (st : DLState) (cl : Option Nat) (body : String),
      paper.pdf_url ≠ "" →
      hasNonemptyFile st.files (targetPath paper) = false →
      (∀ n, cl = some n → n ≤ 50 * 1024 * 1024) →
      "%PDF".toList.isPrefixOf body.toList = false →
      (download_paper paper (.response cl body true) st).ok = false ∧
      getFile (download_paper paper (.response cl body true) st).state.files
        (targetPath paper) = none ∧
      logGet (download_paper paper (.response cl body true) st).state.log paper.id
        = some "invalid") ∧
    (∀ (paper : PaperMetadata) (st : DLState) (n : Nat) (body : String) (complete : Bool),
      paper.pdf_url ≠ "" →
      hasNonemptyFile st.files (targetPath paper) = false →
      50 * 1024 * 1024 < n →
      (download_paper paper (.response (some n) body complete) st).ok = false ∧
      (download_paper paper (.response (some n) body complete) st).state.files = st.files ∧
      logGet (download_paper paper (.response (some n) body complete) st).state.log paper.id
        = some "failed") := by
  constructor
  · intro paper st cl body hurl hfile hcl hbad
    have hdl : download_file (.response cl body true) (targetPath paper) st.files
        = (true, setFile st.files (targetPath paper) body) := by
      rcases cl with _ | n
      · rfl
      · simp [download_file, Nat.not_lt.mpr (hcl n rfl)]
    have hver : verify_pdf (setFile st.files (targetPath paper) body) (targetPath paper)
        = false := by
      rw [verify_pdf_setFile]
      split
      · rfl
      · simpa using hbad
    simp [download_paper, hurl, hfile, hdl, hver, getFile_removeFile, logGet_logSet]
  · intro paper st n body complete hurl hfile hn
    have hdl : download_file (.response (some n) body complete) (targetPath paper) st.files
        = (false, st.files) := by
      simp [download_file, hn]
    simp [download_paper, hurl, hfile, hdl, logGet_logSet]

/-- C5 witness: a concrete bad-signature attempt is logged "invalid" and a
concrete oversized attempt is logged "failed". -/
theorem download_invalid_and_oversized_witness :
    logGet (download_paper paperC5 (.response none "<html>" true) {}).state.log "p5"
      = some "invalid" ∧
    logGet (download_paper paperC5 (.response (some 52428801) "" true) {}).state.log "p5"
      = some "failed" :=
  ⟨(download_invalid_and_oversized.1 paperC5 {} none "<html>" (by decide) (by decide)
      (fun n h => by simp at h) (by decide)).2.2,
    (download_invalid_and_oversized.2 paperC5 {} 52428801 "" true (by decide) (by decide)
      (by norm_num)).2.2⟩

/-- C8: if a download_paper call succeeded, a second call for the same
(updated) paper returns success without consulting the network and leaves
the state unchanged. -/
theorem download_paper_idempotent (paper : PaperMetadata) (r1 r2 : NetResult)
    (st : DLState) (h : (download_paper paper r1 st).ok = true) :
    (download_paper (download_paper paper r1 st).paper r2
      (download_paper paper r1 st).state).ok = true ∧
    (download_paper (download_paper paper r1 st).paper r2
      (download_paper paper r1 st).state).usedNetwork = false ∧
    (download_paper (download_paper paper r1 st).paper r2
      (download_paper paper r1 st).state).state = (download_paper paper r1 st).state := by
  by_cases h0 : paper.pdf_url = ""
  · simp [download_paper, h0] at h
  by_cases h1 : hasNonemptyFile st.files (targetPath paper) = true
  · simp [download_paper, h0, h1, targetPath_update]
  rw [Bool.not_eq_true] at h1
  cases hdl : (download_file r1 (targetPath paper) st.files).1 with
  | false => simp [download_paper, h0, h1, hdl] at h
  | true =>
    cases hver : verify_pdf (download_file r1 (targetPath paper) st.files).2
        (targetPath paper) with
    | false => simp [download_paper, h0, h1, hdl, hver] at h
    | true =>
      have hne := hasNonemptyFile_of_verify _ _ hver
      simp [download_paper, h0, h1, hdl, hver, targetPath_update, hne]

/-- C8 witness: a concrete successful download followed by a second call
that does not consult the network. -/
theorem download_paper_idempotent_witness :
    (download_paper (download_paper paperC8 (.response none "%PDF-1.4" true) {}).paper
      .netError (download_paper paperC8 (.response none "%PDF-1.4" true) {}).state).usedNetwork
      = false :=
  (download_paper_idempotent paperC8 (.response none "%PDF-1.4" true) .netError {}
    (by decide)).2.1

/-- C9: the hunt result is the first success of Unpaywall, CORE, CrossRef
in that fixed order, none after exhaustion; the two DOI-keyed sources
return nothing for a DOI-less paper regardless of the network's answer;
and every source failure — an exception or malformed response, or any
non-200 status — is treated as that source finding nothing (every source
call is total, so no fault propagates out of the hunt). -/
theorem hunt_pdf_chain_order_and_fault_tolerance :
    (∀ (stats : HunterStats) (paper : PaperMetadata) (rs : HuntResponses),
      (hunt_pdf stats paper rs).1 =
        ((unpaywall_find_pdf paper rs.unpaywall).or
          ((core_find_pdf paper rs.core).or (crossref_find_pdf paper rs.crossref)))) ∧
    (∀ paper : PaperMetadata, paper.doi = "" →
      ∀ (r1 : APIResult UnpaywallData) (r3 : APIResult CRMessage),
        unpaywall_find_pdf paper r1 = none ∧ crossref_find_pdf paper r3 = none) ∧
    (∀ paper : PaperMetadata, unpaywall_find_pdf paper .exn = none ∧
      core_find_pdf paper .exn = none ∧ crossref_find_pdf paper .exn = none) ∧
    (∀ (paper : PaperMetadata) (s : Nat), s ≠ 200 →
      (∀ b, unpaywall_find_pdf paper (.ok s b) = none) ∧
      (∀ b, core_find_pdf paper (.ok s b) = none) ∧
      (∀ b, crossref_find_pdf paper (.ok s b) = none)) := by
  refine ⟨fun stats paper rs => ?_, fun paper h r1 r3 => ?_, fun paper => ?_,
    fun paper s hs => ?_⟩
  · rcases h1 : unpaywall_find_pdf paper rs.unpaywall with _ | s1
    · rcases h2 : core_find_pdf paper rs.core with _ | s2
      · rcases h3 : crossref_find_pdf paper rs.crossref with _ | s3 <;>
          simp [hunt_pdf, h1, h2, h3, Option.or]
      · simp [hunt_pdf, h1, h2, Option.or]
    · simp [hunt_pdf, h1, Option.or]
  · exact ⟨by simp [unpaywall_find_pdf, h], by simp [crossref_find_pdf, h]⟩
  · refine ⟨?_, rfl, ?_⟩
    · by_cases h : paper.doi = "" <;> simp [unpaywall_find_pdf, h]
    · by_cases h : paper.doi = "" <;> simp [crossref_find_pdf, h]
  · refine ⟨fun b => ?_, fun b => ?_, fun b => ?_⟩
    · by_cases h : paper.doi = "" <;> simp [unpaywall_find_pdf, h, hs]
    · simp [core_find_pdf, hs]
    · by_cases h : paper.doi = "" <;> simp [crossref_find_pdf, h, hs]

/-- C9 witness: a DOI-less paper gets nothing from the DOI-keyed sources
even on a 200 reply, and a 404 reply makes CORE yield nothing. -/
theorem hunt_pdf_chain_witness :
    unpaywall_find_pdf paperNoDoi (.ok 200 {}) = none ∧
    crossref_find_pdf paperNoDoi .exn = none ∧
    core_find_pdf paperNoDoi (.ok 404 {}) = none :=
  ⟨(hunt_pdf_chain_order_and_fault_tolerance.2.1 paperNoDoi rfl (.ok 200 {}) .exn).1,
    (hunt_pdf_chain_order_and_fault_tolerance.2.1 paperNoDoi rfl (.ok 200 {}) .exn).2,
    (hunt_pdf_chain_order_and_fault_tolerance.2.2.2 paperNoDoi 404 (by decide)).2.1 {}⟩

/-- Bumping a source count increases the per-source sum by one. -/
theorem bumpSource_sum (m : List (String × Nat)) (k : String) :
    ((bumpSource m k).map (fun e => e.2)).sum = (m.map (fun e => e.2)).sum + 1 := by
  induction m with
  | nil => simp [bumpSource]
  | cons e rest ih =>
    rcases e with ⟨k', v⟩
    by_cases h : k' = k <;> simp [bumpSource, h, ih] <;> omega

/-- One hunt preserves the counter relations. -/
theorem hunt_pdf_preserves (stats : HunterStats) (paper : PaperMetadata)
    (rs : HuntResponses) (h : statsOk stats) : statsOk (hunt_pdf stats paper rs).2 := by
  rcases h with ⟨h1, h2⟩
  rcases hu : unpaywall_find_pdf paper rs.unpaywall with _ | s1
  · rcases hc : core_find_pdf paper rs.core with _ | s2
    · rcases hx : crossref_find_pdf paper rs.crossref with _ | s3 <;>
        simp [hunt_pdf, hu, hc, hx, statsOk, bumpSource_sum, h2] <;> omega
    · simp [hunt_pdf, hu, hc, statsOk, bumpSource_sum, h2]
      omega
  · simp [hunt_pdf, hu, statsOk, bumpSource_sum, h2]
    omega

/-- Any hunt sequence preserves the counter relations. -/
theorem run_hunts_preserves (ops : List (PaperMetadata × HuntResponses)) :
    ∀ stats : HunterStats, statsOk stats → statsOk (run_hunts stats ops) := by
  induction ops with
  | nil => intro stats h; exact h
  | cons op rest ih =>
    intro stats h
    rcases op with ⟨p, rs⟩
    exact ih _ (hunt_pdf_preserves stats p rs h)

/-- C10: from a freshly constructed hunter, after every sequence of
completed hunts the counters satisfy attempted = found + not_found and the
per-source counts sum to found; and each hunt increments attempted by
exactly one and exactly one of found / not_found by one. -/
theorem hunter_stats_invariant :
    (∀ ops : List (PaperMetadata × HuntResponses), statsOk (run_hunts {} ops)) ∧
    (∀ (stats : HunterStats) (paper : PaperMetadata) (rs : HuntResponses),
      ((hunt_pdf stats paper rs).2).attempted = stats.attempted + 1 ∧
      ((((hunt_pdf stats paper rs).2).found = stats.found + 1 ∧
          ((hunt_pdf stats paper rs).2).not_found = stats.not_found) ∨
        (((hunt_pdf stats paper rs).2).found = stats.found ∧
          ((hunt_pdf stats paper rs).2).not_found = stats.not_found + 1))) := by
  constructor
  · intro ops
    exact run_hunts_preserves ops {} ⟨rfl, rfl⟩
  · intro stats paper rs
    rcases hu : unpaywall_find_pdf paper rs.unpaywall with _ | s1
    · rcases hc : core_find_pdf paper rs.core with _ | s2
      · rcases hx : crossref_find_pdf paper rs.crossref with _ | s3 <;>
          simp [hunt_pdf, hu, hc, hx]
      · simp [hunt_pdf, hu, hc]
    · simp [hunt_pdf, hu]
